import Mathlib

/-!
Shallow embedding of the authorization core of the `fastapi-sso-auth-system`
repository: the credential codec (`app/core/security.py`), the principal
resolver and access-control evaluator (`app/api/deps.py`), the API-key
lifecycle manager (`app/services/api_key_service.py`, `app/crud/api_key.py`),
the permission aggregators (`app/models/user.py`, `app/models/api_key.py`)
and identity reconciliation (`app/services/auth_service.py`,
`app/crud/user.py`).

Modelling conventions:
* wall-clock instants are `Nat` epoch seconds (python-jose serializes `exp`
  and `iat` at second granularity via `timegm`);
* a JWT is modelled as a record holding its payload together with the secret
  and algorithm identifier it was signed with; signature verification is
  equality of secret and algorithm with the verifier's settings, followed by
  python-jose's default claim validations (`_validate_exp`, then
  `_validate_sub`, which rejects a present non-string `sub`);
* SQLAlchemy-backed stores are lists of records; `query(...).first()` is
  `List.find?`, commits are functional record updates;
* Python `set` results are `Finset String` over permission / role names
  (permission and role names are unique in the schema, so identity-based
  de-duplication of ORM rows coincides with name-based de-duplication);
* raised `HTTPException`s are `Except HError`; functions that catch them and
  return `None` are `Option`-valued.
-/

/-- `app/core/config.py` `Settings`: the fields the core consumes. -/
structure Settings where
  SECRET_KEY : String
  ALGORITHM : String
  ACCESS_TOKEN_EXPIRE_MINUTES : Nat
  deriving Repr, DecidableEq

/-- The default configuration values from `app/core/config.py`. -/
def defaultSettings : Settings :=
  { SECRET_KEY := "your-secret-key-change-in-production"
    ALGORITHM := "HS256"
    ACCESS_TOKEN_EXPIRE_MINUTES := 30 }

/-- A raised `fastapi.HTTPException`: status code and detail message. -/
structure HError where
  status : Nat
  detail : String
  deriving Repr, DecidableEq

/-- Failures raised by `jose.jwt.decode` (`JWTError` and its subclasses). -/
inductive JWTError where
  /-- `ExpiredSignatureError`: the `exp` claim is in the past. -/
  | expired : JWTError
  /-- `JWTError`: signature verification failed. -/
  | invalidSignature : JWTError
  /-- `JWTError`: the token's algorithm is not among the allowed ones. -/
  | badAlgorithm : JWTError
  /-- `JWTClaimsError` from `_validate_claims` — in particular
  `_validate_sub`'s "Subject must be a string." when a `sub` claim is
  present and is not a `str` (python-jose decodes with `verify_sub` on by
  default). -/
  | claimsError : JWTError
  deriving Repr, DecidableEq

/-- The application-level claims placed into a token by
`AuthService.create_user_token` (`sub`, `email`, `roles`, `permissions`).
`sub` is optional because an arbitrary decoded payload may lack it
(`payload.get("sub")` in `app/api/deps.py`). `sub_is_string` records the
Python type of the `sub` value: `false` for an `int` (what every issuance
site in this app uses, `"sub": user.id`), `true` for a decimal-string
subject, whose text is the numeral of `sub` — the representation the SQL
layer would cast back to the integer primary key. Non-numeric string
subjects (which the database engine would reject when compared against the
integer `User.id` column) are outside the model. -/
structure TokenData where
  sub : Option Nat
  sub_is_string : Bool
  email : String
  roles : List String
  permissions : List String
  deriving Repr, DecidableEq

/-- The full payload of an encoded token: the caller's claims plus the
`exp` and `iat` entries added by `create_access_token`. -/
structure JWTPayload where
  data : TokenData
  exp : Nat
  iat : Nat
  deriving Repr, DecidableEq

/-- An encoded, signed JWT: its payload plus the secret and algorithm
identifier that produced the signature. -/
structure Token where
  payload : JWTPayload
  secret : String
  alg : String
  deriving Repr, DecidableEq

/-- `app/core/security.py` `create_access_token`: copy the claims, add
`exp = now + expires_delta` (or `now + ACCESS_TOKEN_EXPIRE_MINUTES` minutes
when no delta is given) and `iat = now`, and sign with the process-wide
secret and algorithm. `expires_delta` is in seconds. -/
def create_access_token (settings : Settings) (data : TokenData)
    (expires_delta : Option Nat) (now : Nat) : Token :=
  let expire :=
    match expires_delta with
    | some d => now + d
    | none => now + settings.ACCESS_TOKEN_EXPIRE_MINUTES * 60
  { payload := { data := data, exp := expire, iat := now }
    secret := settings.SECRET_KEY
    alg := settings.ALGORITHM }

/-- `app/core/security.py` `decode_access_token` via `jose.jwt.decode`
with default options: verify the signature (secret and allowed algorithm),
then run the default claim validations in python-jose order — reject when
`exp < now` (`_validate_exp` with zero leeway), then reject a present,
non-string `sub` claim (`_validate_sub`, `JWTClaimsError` "Subject must be
a string.") — else return the payload. -/
def decode_access_token (settings : Settings) (token : Token) (now : Nat) :
    Except JWTError JWTPayload :=
  if token.alg ≠ settings.ALGORITHM then .error .badAlgorithm
  else if token.secret ≠ settings.SECRET_KEY then .error .invalidSignature
  else if token.payload.exp < now then .error .expired
  else if token.payload.data.sub.isSome && !token.payload.data.sub_is_string
    then .error .claimsError
  else .ok token.payload

/-! ## Data model (`app/models/`) -/

/-- `app/models/role.py` `Role`: the fields the core reads. `permissions`
is the materialized many-to-many relationship, as permission names. -/
structure RoleR where
  name : String
  permissions : List String
  deriving Repr, DecidableEq

/-- `app/models/user.py` `User`: the fields the core reads, with the
`roles` relationship materialized. -/
structure UserR where
  id : Nat
  email : String
  full_name : Option String
  avatar_url : Option String
  is_active : Bool
  is_superuser : Bool
  roles : List RoleR
  deriving Repr, DecidableEq

/-- `app/models/api_key.py` `APIKey`: the fields the core reads, with the
`roles` and `permissions` relationships materialized. `user_id` is nullable
in the schema. Timestamps are epoch seconds. -/
structure APIKeyR where
  id : Nat
  user_id : Option Nat
  key : String
  name : String
  description : Option String
  is_active : Bool
  expires_at : Option Nat
  last_used_at : Option Nat
  roles : List RoleR
  permissions : List String
  deriving Repr, DecidableEq

/-- `app/models/user.py` `User.permissions`: extend a list with each role's
permissions, then de-duplicate with `list(set(perms))`; the resulting set. -/
def UserR.permissionSet (u : UserR) : Finset String :=
  (u.roles.flatMap RoleR.permissions).toFinset

/-- The same aggregation as `UserR.permissionSet`, as a function of the
role list alone (the `for role in self.roles: perms.extend(role.permissions)`
loop body). -/
def rolePermissionUnion (roles : List RoleR) : Finset String :=
  (roles.flatMap RoleR.permissions).toFinset

/-- `app/models/api_key.py` `APIKey.all_permissions`: direct permissions,
extended with each attached role's permissions, de-duplicated via
`list(set(perms))`; the resulting set. -/
def APIKeyR.all_permissions (k : APIKeyR) : Finset String :=
  (k.permissions ++ k.roles.flatMap RoleR.permissions).toFinset

/-! ## API-key CRUD and lifecycle (`app/crud/api_key.py`,
`app/services/api_key_service.py`) -/

/-- `CRUDAPIKey.get_by_key`: `query(APIKey).filter(APIKey.key == key).first()`
over the api-key table. -/
def get_by_key (table : List APIKeyR) (key : String) : Option APIKeyR :=
  table.find? (fun k => k.key == key)

/-- `CRUDBase.get`: `query(APIKey).get(id)`-style lookup by primary key. -/
def get_by_id (table : List APIKeyR) (id : Nat) : Option APIKeyR :=
  table.find? (fun k => k.id == id)

/-- `CRUDAPIKey.get_by_user`: all keys whose `user_id` equals the given
owner. -/
def get_by_user (table : List APIKeyR) (user_id : Nat) : List APIKeyR :=
  table.filter (fun k => k.user_id == some user_id)

/-- `CRUDAPIKey.is_valid`: `False` when `is_active` is unset; `False` when
`expires_at` is set and `expires_at < datetime.utcnow()`; else `True`. -/
def is_valid (api_key : APIKeyR) (now : Nat) : Bool :=
  if !api_key.is_active then false
  else
    match api_key.expires_at with
    | some e => if e < now then false else true
    | none => true

/-- `CRUDAPIKey.update_last_used`: set the matched record's `last_used_at`
to the current time and commit. In the list model the row with that key
string is replaced (the column is unique). -/
def update_last_used (table : List APIKeyR) (api_key : APIKeyR) (now : Nat) :
    List APIKeyR :=
  table.map (fun k =>
    if k.key == api_key.key then { k with last_used_at := some now } else k)

/-- `APIKeyService.validate_api_key`: look the key up by its string; `None`
when absent or invalid (store untouched); on success update `last_used_at`
and return the refreshed record together with the updated store. -/
def validate_api_key (table : List APIKeyR) (key : String) (now : Nat) :
    Option APIKeyR × List APIKeyR :=
  match get_by_key table key with
  | none => (none, table)
  | some api_key =>
    if !is_valid api_key now then (none, table)
    else (some { api_key with last_used_at := some now },
          update_last_used table api_key now)

/-- `APIKeyService.get_api_key`: 404 `"API key not found"` when the id is
absent or the record's owner is not the caller; else the record. -/
def get_api_key (table : List APIKeyR) (api_key_id : Nat) (user_id : Nat) :
    Except HError APIKeyR :=
  match get_by_id table api_key_id with
  | none => .error ⟨404, "API key not found"⟩
  | some api_key =>
    if api_key.user_id ≠ some user_id then .error ⟨404, "API key not found"⟩
    else .ok api_key

/-- `APIKeyService.delete_api_key`: same absent-or-foreign check, 404;
else remove the record from the store. -/
def delete_api_key (table : List APIKeyR) (api_key_id : Nat) (user_id : Nat) :
    Except HError (List APIKeyR) :=
  match get_by_id table api_key_id with
  | none => .error ⟨404, "API key not found"⟩
  | some api_key =>
    if api_key.user_id ≠ some user_id then .error ⟨404, "API key not found"⟩
    else .ok (table.filter (fun k => k.id ≠ api_key_id))

/-- `APIKeyService.toggle_api_key`: same absent-or-foreign check, 404; else
`CRUDAPIKey.activate` / `deactivate` set `is_active` and commit. Returns the
updated record and store. -/
def toggle_api_key (table : List APIKeyR) (api_key_id : Nat) (user_id : Nat)
    (activate : Bool) : Except HError (APIKeyR × List APIKeyR) :=
  match get_by_id table api_key_id with
  | none => .error ⟨404, "API key not found"⟩
  | some api_key =>
    if api_key.user_id ≠ some user_id then .error ⟨404, "API key not found"⟩
    else
      .ok ({ api_key with is_active := activate },
           table.map (fun k =>
             if k.id == api_key_id then { k with is_active := activate } else k))

/-! ## Auth service (`app/services/auth_service.py`) -/

/-- `AuthService.verify_user_active`: raise 403 `"Inactive user"` when the
user's `is_active` flag is unset. -/
def verify_user_active (user : UserR) : Except HError Unit :=
  if !user.is_active then .error ⟨403, "Inactive user"⟩ else .ok ()

/-- `AuthService.create_user_token`: embed `sub`, `email`, the role names
and the set of permissions collected from the user's roles, and sign with
the configured TTL. `"sub": user.id` puts a Python `int` into the subject
claim, hence `sub_is_string := false`. -/
def create_user_token (settings : Settings) (user : UserR) (now : Nat) :
    Token :=
  create_access_token settings
    { sub := some user.id
      sub_is_string := false
      email := user.email
      roles := user.roles.map RoleR.name
      permissions := (user.roles.flatMap RoleR.permissions).dedup }
    (some (settings.ACCESS_TOKEN_EXPIRE_MINUTES * 60)) now

/-! ## Principal resolver (`app/api/deps.py`)

The resolver state is the user table plus the api-key table; request-level
inputs are the optional bearer credentials and the optional `X-API-Key`
header value. -/

/-- The store the dependency functions query: the user table and the
api-key table. -/
structure Store where
  users : List UserR
  api_keys : List APIKeyR
  deriving Repr, DecidableEq

/-- `get_current_user_from_jwt`: `None` without credentials; decode the
token, `None` on any `JWTError`; `None` when the payload lacks `sub` or no
user has that id; `verify_user_active` on a found user, with the resulting
`HTTPException` caught and converted to `None`. Total by construction. -/
def get_current_user_from_jwt (settings : Settings)
    (credentials : Option Token) (db : Store) (now : Nat) : Option UserR :=
  match credentials with
  | none => none
  | some token =>
    match decode_access_token settings token now with
    | .error _ => none
    | .ok payload =>
      match payload.data.sub with
      | none => none
      | some user_id =>
        match db.users.find? (fun u => u.id == user_id) with
        | none => none
        | some user =>
          match verify_user_active user with
          | .error _ => none
          | .ok _ => some user

/-- `get_current_user_from_apikey`: `None` without a header; validate the
key (updating `last_used_at` on success); `None` when invalid or ownerless;
look up the owner; `verify_user_active` on a found owner — its 403 is NOT
caught here and escapes to the caller. -/
def get_current_user_from_apikey (api_key : Option String) (db : Store)
    (now : Nat) : Except HError (Option UserR × Store) :=
  match api_key with
  | none => .ok (none, db)
  | some key =>
    let res := validate_api_key db.api_keys key now
    let db' : Store := { db with api_keys := res.2 }
    match res.1 with
    | none => .ok (none, db')
    | some api_key_obj =>
      match api_key_obj.user_id with
      | none => .ok (none, db')
      | some uid =>
        match db'.users.find? (fun u => u.id == uid) with
        | none => .ok (none, db')
        | some user =>
          match verify_user_active user with
          | .error e => .error e
          | .ok _ => .ok (some user, db')

/-- `get_current_user_jwt_required`: 401 `"JWT token required"` without
credentials; otherwise delegate to the optional JWT resolver and turn its
`None` into 401 `"Could not validate credentials"`. -/
def get_current_user_jwt_required (settings : Settings)
    (credentials : Option Token) (db : Store) (now : Nat) :
    Except HError UserR :=
  match credentials with
  | none => .error ⟨401, "JWT token required"⟩
  | some _ =>
    match get_current_user_from_jwt settings credentials db now with
    | none => .error ⟨401, "Could not validate credentials"⟩
    | some user => .ok user

/-- `get_current_user_apikey_required`: 401 `"API key required"` without a
header; otherwise delegate to the optional key resolver (whose 403 for an
inactive owner propagates) and turn its `None` into 401
`"Invalid or expired API key"`. -/
def get_current_user_apikey_required (api_key : Option String) (db : Store)
    (now : Nat) : Except HError (UserR × Store) :=
  match api_key with
  | none => .error ⟨401, "API key required"⟩
  | some _ =>
    match get_current_user_from_apikey api_key db now with
    | .error e => .error e
    | .ok (none, _) => .error ⟨401, "Invalid or expired API key"⟩
    | .ok (some user, db') => .ok (user, db')

/-! ## Access-control evaluator (`app/api/deps.py`
`require_permissions` / `require_roles`) -/

/-- Rendering of the required-name list interpolated into the 403 detail
string (Python formats the list with quoted elements; quoting is elided
here). -/
def showNames (names : List String) : String :=
  "[" ++ String.intercalate ", " names ++ "]"

/-- The `if api_key:` block of `permission_checker`: when an API key was
presented and validates, the key's direct permissions together with each of
its roles' permissions; the (possibly `last_used_at`-refreshed) store comes
along. -/
def checker_key_permissions (api_key : Option String) (db : Store)
    (now : Nat) : Finset String × Store :=
  match api_key with
  | none => (∅, db)
  | some key =>
    let res := validate_api_key db.api_keys key now
    let db' : Store := { db with api_keys := res.2 }
    match res.1 with
    | none => (∅, db')
    | some api_key_obj =>
      (api_key_obj.permissions.toFinset ∪
         (api_key_obj.roles.flatMap RoleR.permissions).toFinset, db')

/-- The `if api_key:` block of `role_checker`: the validated key's attached
role names. -/
def checker_key_roles (api_key : Option String) (db : Store) (now : Nat) :
    Finset String × Store :=
  match api_key with
  | none => (∅, db)
  | some key =>
    let res := validate_api_key db.api_keys key now
    let db' : Store := { db with api_keys := res.2 }
    match res.1 with
    | none => (∅, db')
    | some api_key_obj => ((api_key_obj.roles.map RoleR.name).toFinset, db')

/-- The `if credentials and not user_permissions:` block shared by both
checkers: when bearer credentials were presented and the accumulated set is
still empty, add the selected claim list of the decoded payload (a
`JWTError` is swallowed). -/
def checker_token_fallback (settings : Settings) (credentials : Option Token)
    (now : Nat) (claims : JWTPayload → List String) (acc : Finset String) :
    Finset String :=
  match credentials with
  | none => acc
  | some token =>
    if acc = ∅ then
      match decode_access_token settings token now with
      | .ok payload => acc ∪ (claims payload).toFinset
      | .error _ => acc
    else acc

/-- `require_permissions(...)`'s inner `permission_checker`: start from the
empty set; when an API key was presented and validates, add its direct
permissions and each of its roles' permissions; when bearer credentials
were presented and the set is still empty, add the decoded payload's
`permissions` claim; finally require every listed permission, else 403.
The store is returned because a successful key validation refreshes
`last_used_at`. -/
def permission_checker (settings : Settings) (required_permissions : List String)
    (credentials : Option Token) (api_key : Option String) (db : Store)
    (now : Nat) : Except HError Bool × Store :=
  let step1 := checker_key_permissions api_key db now
  let user_permissions :=
    checker_token_fallback settings credentials now
      (fun payload => payload.data.permissions) step1.1
  if required_permissions.all (fun perm => perm ∈ user_permissions) then
    (.ok true, step1.2)
  else
    (.error ⟨403, "Missing required permissions: " ++
       showNames required_permissions⟩, step1.2)

/-- `require_roles(...)`'s inner `role_checker`: when an API key was
presented and validates, take its attached roles' names; when bearer
credentials were presented and the set is still empty, add the decoded
payload's `roles` claim; finally require at least one listed role,
else 403. -/
def role_checker (settings : Settings) (required_roles : List String)
    (credentials : Option Token) (api_key : Option String) (db : Store)
    (now : Nat) : Except HError Bool × Store :=
  let step1 := checker_key_roles api_key db now
  let user_roles :=
    checker_token_fallback settings credentials now
      (fun payload => payload.data.roles) step1.1
  if required_roles.any (fun role => role ∈ user_roles) then
    (.ok true, step1.2)
  else
    (.error ⟨403, "Missing required roles: " ++ showNames required_roles⟩,
     step1.2)

/-! ## Spec-side descriptions used by the refinement claims

The definitions below follow the SPEC's wording (not the code) and are
compared against the code-derived definitions in the theorems. -/

/-- Spec wording (§3, claim C3): an API Key validates successfully iff
`is_active == true AND (expires_at is null OR expires_at > now)`. -/
def specKeyValidClaim (api_key : APIKeyR) (now : Nat) : Prop :=
  api_key.is_active = true ∧
    (api_key.expires_at = none ∨ ∃ e, api_key.expires_at = some e ∧ now < e)

instance (api_key : APIKeyR) (now : Nat) :
    Decidable (specKeyValidClaim api_key now) := by
  unfold specKeyValidClaim
  exact inferInstance

/-- Amended wording for C3: validity holds at `now = expires_at` as well
(`expires_at ≥ now`, since the code only rejects `expires_at < now`). -/
def specKeyValidAmended (api_key : APIKeyR) (now : Nat) : Prop :=
  api_key.is_active = true ∧
    (api_key.expires_at = none ∨ ∃ e, api_key.expires_at = some e ∧ now ≤ e)

/-- Spec wording (§4.4, claim C4): the key-derived effective permission set
of a presented API key — direct grants union role-derived grants — empty
when no key was presented or the key does not validate. -/
def specKeyDerivedPerms (api_key : Option String) (db : Store) (now : Nat) :
    Finset String :=
  match api_key with
  | none => ∅
  | some key =>
    match (validate_api_key db.api_keys key now).1 with
    | none => ∅
    | some k => k.permissions.toFinset ∪ rolePermissionUnion k.roles

/-- Spec wording (§4.4, claim C4): the key-derived role-name set of a
presented API key. -/
def specKeyDerivedRoles (api_key : Option String) (db : Store) (now : Nat) :
    Finset String :=
  match api_key with
  | none => ∅
  | some key =>
    match (validate_api_key db.api_keys key now).1 with
    | none => ∅
    | some k => (k.roles.map RoleR.name).toFinset

/-- Spec wording (§4.4, claim C4): the token-embedded permission snapshot —
empty when no bearer token was presented or it fails to decode. -/
def specTokenPerms (settings : Settings) (credentials : Option Token)
    (now : Nat) : Finset String :=
  match credentials with
  | none => ∅
  | some token =>
    match decode_access_token settings token now with
    | .ok payload => payload.data.permissions.toFinset
    | .error _ => ∅

/-- Spec wording (§4.4, claim C4): the token-embedded role snapshot. -/
def specTokenRoles (settings : Settings) (credentials : Option Token)
    (now : Nat) : Finset String :=
  match credentials with
  | none => ∅
  | some token =>
    match decode_access_token settings token now with
    | .ok payload => payload.data.roles.toFinset
    | .error _ => ∅

/-- Spec wording (§4.4, claim C4): the effective permission set — the
key-derived set when a key was presented and yielded something, the
token-embedded claims otherwise. -/
def specEffectivePerms (settings : Settings) (credentials : Option Token)
    (api_key : Option String) (db : Store) (now : Nat) : Finset String :=
  if specKeyDerivedPerms api_key db now ≠ ∅ then
    specKeyDerivedPerms api_key db now
  else specTokenPerms settings credentials now

/-- Spec wording (§4.4, claim C4): the effective role set, dually. -/
def specEffectiveRoles (settings : Settings) (credentials : Option Token)
    (api_key : Option String) (db : Store) (now : Nat) : Finset String :=
  if specKeyDerivedRoles api_key db now ≠ ∅ then
    specKeyDerivedRoles api_key db now
  else specTokenRoles settings credentials now

/-! ## Identity reconciliation (`app/services/auth_service.py`
`create_or_get_user_from_oauth`, `app/crud/user.py` `create_with_role`) -/

/-- `app/models/oauth.py` `OAuthAccount`: one external-identity link. The
provider profile blob is kept abstract as a string. -/
structure OAuthAccountR where
  user_id : Nat
  provider : String
  provider_user_id : String
  access_token : String
  refresh_token : Option String
  provider_data : Option String
  deriving Repr, DecidableEq

/-- The store reconciliation touches: users, the role table, the
oauth-account table, and the next fresh user primary key. -/
structure OAuthStore where
  users : List UserR
  roles : List RoleR
  accounts : List OAuthAccountR
  nextUserId : Nat
  deriving Repr, DecidableEq

/-- The normalized profile handed over by the identity-exchange layer
(the keyword arguments of `create_or_get_user_from_oauth`). -/
structure OAuthProfile where
  provider : String
  email : String
  full_name : Option String
  avatar_url : Option String
  provider_user_id : String
  access_token : String
  refresh_token : Option String
  provider_data : Option String
  deriving Repr, DecidableEq

/-- Python truthiness of `full_name or email.split("@")[0]`: `None` and the
empty string both fall back to the email's local part. -/
def defaulted_full_name (full_name : Option String) (email : String) :
    String :=
  match full_name with
  | some s => if s = "" then email.takeWhile (fun c => c ≠ '@') else s
  | none => email.takeWhile (fun c => c ≠ '@')

/-- `CRUDUser.create_with_role` (with the service's subsequent
`user.avatar_url = avatar_url` assignment): a fresh active, non-superuser
user; the role named `"user"` is attached when the role table has it,
otherwise the user starts with no roles. New rows are prepended. -/
def create_with_role (st : OAuthStore) (p : OAuthProfile) :
    UserR × OAuthStore :=
  let roles :=
    match st.roles.find? (fun r => r.name == "user") with
    | some role => [role]
    | none => []
  let user : UserR :=
    { id := st.nextUserId
      email := p.email
      full_name := some (defaulted_full_name p.full_name p.email)
      avatar_url := p.avatar_url
      is_active := true
      is_superuser := false
      roles := roles }
  (user, { st with users := user :: st.users, nextUserId := st.nextUserId + 1 })

/-- The link record inserted for a (principal, provider) pair seen for the
first time: the `OAuthAccount(...)` constructor call in
`create_or_get_user_from_oauth`. -/
def newOAuthAccount (uid : Nat) (p : OAuthProfile) : OAuthAccountR :=
  { user_id := uid
    provider := p.provider
    provider_user_id := p.provider_user_id
    access_token := p.access_token
    refresh_token := p.refresh_token
    provider_data := p.provider_data }

/-- The refresh of an existing link on a repeated login: always overwrite
`access_token`; overwrite `refresh_token` and `provider_data` only when the
incoming values are set (the `if refresh_token:` / `if provider_data:`
guards). -/
def refreshOAuthAccount (p : OAuthProfile) (a : OAuthAccountR) :
    OAuthAccountR :=
  { a with
    access_token := p.access_token
    refresh_token :=
      if p.refresh_token.isSome then p.refresh_token else a.refresh_token
    provider_data :=
      if p.provider_data.isSome then p.provider_data else a.provider_data }

/-- `AuthService.create_or_get_user_from_oauth`: look the user up by email,
creating one (default role, non-superuser) when absent; then look up the
(user, provider) link, inserting it when absent and refreshing its stored
tokens/profile when present. Returns the user either way. -/
def create_or_get_user_from_oauth (st : OAuthStore) (p : OAuthProfile) :
    UserR × OAuthStore :=
  let step1 : UserR × OAuthStore :=
    match st.users.find? (fun u => u.email == p.email) with
    | some user => (user, st)
    | none => create_with_role st p
  let user := step1.1
  let st1 := step1.2
  match st1.accounts.find?
      (fun a => a.user_id == user.id && a.provider == p.provider) with
  | none =>
    (user, { st1 with accounts := newOAuthAccount user.id p :: st1.accounts })
  | some _ =>
    (user,
     { st1 with accounts := st1.accounts.map (fun a =>
        if a.user_id == user.id && a.provider == p.provider then
          refreshOAuthAccount p a
        else a) })

/-- The user record `create_with_role` inserts when the `"user"` role is
present in the role table. -/
def freshOAuthUser (st : OAuthStore) (p : OAuthProfile) (role : RoleR) :
    UserR :=
  { id := st.nextUserId
    email := p.email
    full_name := some (defaulted_full_name p.full_name p.email)
    avatar_url := p.avatar_url
    is_active := true
    is_superuser := false
    roles := [role] }

/-! ## Concrete fixtures

Small concrete records (mirroring the defaults seeded by
`app/db/init_db.py`) used to instantiate the theorems below. -/

/-- The seeded `admin` role with two of its default permissions. -/
def exRoleAdmin : RoleR :=
  { name := "admin", permissions := ["users:read", "users:write"] }

/-- The seeded `user` role with two of its default permissions. -/
def exRoleUser : RoleR :=
  { name := "user", permissions := ["users:read", "posts:read"] }

/-- An active API key whose `expires_at` equals the probe instant. -/
def exBoundaryKey : APIKeyR :=
  { id := 1, user_id := some 7, key := "sk-boundary", name := "boundary"
    description := none, is_active := true, expires_at := some 100
    last_used_at := none, roles := [], permissions := [] }

/-- A live API key owned by user 7, with a direct grant and the admin
role attached. -/
def exKeyOwned : APIKeyR :=
  { id := 2, user_id := some 7, key := "sk-live", name := "live"
    description := none, is_active := true, expires_at := none
    last_used_at := none, roles := [exRoleAdmin]
    permissions := ["analytics:read"] }

/-- A key owned by a different user (id 8). -/
def exForeignKey : APIKeyR :=
  { id := 3, user_id := some 8, key := "sk-other", name := "other"
    description := none, is_active := true, expires_at := none
    last_used_at := none, roles := [], permissions := ["posts:read"] }

/-- A deactivated principal (id 7). -/
def exInactiveUser : UserR :=
  { id := 7, email := "inactive@example.com", full_name := some "Ina"
    avatar_url := none, is_active := false, is_superuser := false
    roles := [exRoleUser] }

/-- An active principal (id 9). -/
def exActiveUser : UserR :=
  { id := 9, email := "active@example.com", full_name := some "Ada"
    avatar_url := none, is_active := true, is_superuser := false
    roles := [exRoleUser] }

/-- A resolver store holding both principals and both keys. -/
def exStore : Store :=
  { users := [exInactiveUser, exActiveUser]
    api_keys := [exBoundaryKey, exKeyOwned, exForeignKey] }

/-- A token issued to the deactivated principal at instant 0 (its TTL is
30 minutes, so it is cryptographically valid until 1800). -/
def exInactiveToken : Token := create_user_token defaultSettings exInactiveUser 0

/-- A token issued to the active principal at instant 0. -/
def exActiveToken : Token := create_user_token defaultSettings exActiveUser 0

/-- Sample claims shaped like the app's own issuance sites: an integer
subject (`"sub": user.id`). -/
def exTokenData : TokenData :=
  { sub := some 9, sub_is_string := false, email := "active@example.com"
    roles := ["user"], permissions := ["users:read", "posts:read"] }

/-- The same claims with a decimal-string subject (`"sub": "9"`), the
shape python-jose's subject validation accepts. -/
def exTokenDataStr : TokenData :=
  { sub := some 9, sub_is_string := true, email := "active@example.com"
    roles := ["user"], permissions := ["users:read", "posts:read"] }

/-- A token signed with the process secret whose subject is the
decimal-string id of the deactivated principal (`"sub": "7"`): it passes
every decode-time validation and resolves to user 7. -/
def exInactiveStrToken : Token :=
  { payload :=
      { data :=
          { sub := some 7, sub_is_string := true
            email := "inactive@example.com", roles := ["user"]
            permissions := ["users:read", "posts:read"] }
        exp := 1800, iat := 0 }
    secret := "your-secret-key-change-in-production", alg := "HS256" }

/-- A reconciliation store: the seeded `user` role, no users, no links. -/
def exOStore : OAuthStore :=
  { users := [], roles := [exRoleUser], accounts := [], nextUserId := 1 }

/-- A normalized Google profile for `alice@example.com`. -/
def exP1 : OAuthProfile :=
  { provider := "google", email := "alice@example.com"
    full_name := some "Alice", avatar_url := none, provider_user_id := "g-1"
    access_token := "at-1", refresh_token := none, provider_data := none }

/-- A normalized GitHub profile for the same email. -/
def exP2 : OAuthProfile :=
  { provider := "github", email := "alice@example.com"
    full_name := some "Alice", avatar_url := none, provider_user_id := "gh-1"
    access_token := "at-2", refresh_token := none, provider_data := none }

/-- A repeated Google login for the same email with fresh tokens. -/
def exP3 : OAuthProfile :=
  { provider := "google", email := "alice@example.com"
    full_name := some "Alice", avatar_url := none, provider_user_id := "g-1"
    access_token := "at-3", refresh_token := some "rt-3"
    provider_data := none }

/-- A token carrying well-formed claims but signed with a different
secret. -/
def exBadToken : Token :=
  { payload := { data := exTokenData, exp := 1800, iat := 0 }
    secret := "not-the-process-secret", alg := "HS256" }

/-! ## Theorems -/

/-- C3 counterexample: an active key whose `expires_at` equals the probe
instant still validates (`is_valid` only rejects `expires_at < now`), yet
the claimed condition `expires_at > now` is false there — so "validates iff
`is_active AND (expires_at is null OR expires_at > now)`" fails at the
boundary instant. -/
theorem api_key_validity_boundary_cex :
    is_valid exBoundaryKey 100 = true ∧ ¬ specKeyValidClaim exBoundaryKey 100 := by
  refine ⟨rfl, ?_⟩
  unfold specKeyValidClaim exBoundaryKey
  simp

/-- C3 (amended): a key validates successfully iff `is_active` is true and
(`expires_at` is null or `expires_at ≥ now`) — the code keeps a key valid
at the exact expiry instant; and `validate_api_key` re-evaluates this from
the stored record on every use: it succeeds iff the lookup finds a record
that satisfies the condition at the current instant. -/
theorem api_key_validity_semantics :
    ∀ (api_key : APIKeyR) (now : Nat) (table : List APIKeyR) (key : String),
      (is_valid api_key now = true ↔ specKeyValidAmended api_key now) ∧
      ((validate_api_key table key now).1.isSome = true ↔
        ∃ k, get_by_key table key = some k ∧ is_valid k now = true) := by
  intro api_key now table key
  constructor
  · unfold is_valid specKeyValidAmended
    cases h : api_key.expires_at <;> cases ha : api_key.is_active <;>
      simp [h, ha]
  · unfold validate_api_key
    cases h : get_by_key table key with
    | none => simp [h]
    | some k => cases hv : is_valid k now <;> simp [h, hv]

/-- C5: a Principal's aggregated permission set (`User.permissions`) is the
deduplicated union of its roles' permission sets, and it is invariant under
permutation of the role list and under duplicate role entries. -/
theorem user_permission_aggregation :
    ∀ (u : UserR) (l₁ l₂ : List RoleR) (r : RoleR) (rs : List RoleR),
      (u.permissionSet =
        u.roles.foldr (fun ro acc => ro.permissions.toFinset ∪ acc) ∅) ∧
      (l₁.Perm l₂ → rolePermissionUnion l₁ = rolePermissionUnion l₂) ∧
      (rolePermissionUnion (r :: r :: rs) = rolePermissionUnion (r :: rs)) := by
  intro u l₁ l₂ r rs
  refine ⟨?_, ?_, ?_⟩
  · have key : ∀ (roles : List RoleR),
        (roles.flatMap RoleR.permissions).toFinset =
          roles.foldr (fun ro acc => ro.permissions.toFinset ∪ acc) ∅ := by
      intro roles
      induction roles with
      | nil => simp
      | cons hd tl ih => simp [ih]
    exact key u.roles
  · intro hperm
    unfold rolePermissionUnion
    ext a
    simp only [List.mem_toFinset, List.mem_flatMap]
    constructor
    · rintro ⟨ro, hro, ha⟩
      exact ⟨ro, hperm.mem_iff.mp hro, ha⟩
    · rintro ⟨ro, hro, ha⟩
      exact ⟨ro, hperm.mem_iff.mpr hro, ha⟩
  · unfold rolePermissionUnion
    ext a
    simp only [List.mem_toFinset, List.mem_flatMap, List.mem_cons]
    constructor
    · rintro ⟨ro, hro, ha⟩
      rcases hro with h | h | h
      · exact ⟨ro, Or.inl h, ha⟩
      · exact ⟨ro, Or.inl h, ha⟩
      · exact ⟨ro, Or.inr h, ha⟩
    · rintro ⟨ro, hro, ha⟩
      rcases hro with h | h
      · exact ⟨ro, Or.inl h, ha⟩
      · exact ⟨ro, Or.inr (Or.inr h), ha⟩

/-- C5 witness: the aggregation agrees on a shuffled concrete role list. -/
theorem user_permission_aggregation_witness :
    rolePermissionUnion [exRoleAdmin, exRoleUser] =
      rolePermissionUnion [exRoleUser, exRoleAdmin] :=
  (user_permission_aggregation exActiveUser [exRoleAdmin, exRoleUser]
    [exRoleUser, exRoleAdmin] exRoleAdmin []).2.1
    (List.Perm.swap exRoleUser exRoleAdmin [])

/-- C6: an API key's aggregated permission set (`APIKey.all_permissions`)
is the union of its direct grants with its roles' permission sets; hence it
contains the direct grants and each attached role's permission set. -/
theorem api_key_permission_aggregation :
    ∀ (k : APIKeyR),
      k.all_permissions =
        k.permissions.toFinset ∪ rolePermissionUnion k.roles ∧
      k.permissions.toFinset ⊆ k.all_permissions ∧
      ∀ r, r ∈ k.roles → r.permissions.toFinset ⊆ k.all_permissions := by
  intro k
  have h1 : k.all_permissions =
      k.permissions.toFinset ∪ rolePermissionUnion k.roles := by
    unfold APIKeyR.all_permissions rolePermissionUnion
    simp
  refine ⟨h1, ?_, ?_⟩
  · rw [h1]
    exact Finset.subset_union_left
  · intro r hr
    rw [h1]
    refine Finset.Subset.trans ?_ Finset.subset_union_right
    unfold rolePermissionUnion
    intro a ha
    simp only [List.mem_toFinset] at ha ⊢
    exact List.mem_flatMap.mpr ⟨r, hr, ha⟩

/-- C6 witness: the admin role's permissions sit inside the concrete key's
aggregate. -/
theorem api_key_permission_aggregation_witness :
    exRoleAdmin.permissions.toFinset ⊆ exKeyOwned.all_permissions :=
  (api_key_permission_aggregation exKeyOwned).2.2 exRoleAdmin
    (by simp [exKeyOwned])

/-- C10: `validate_api_key` leaves the store untouched whenever it returns
`None` (unknown, inactive, or expired key), and on success changes exactly
the matched record's `last_used_at` field, returning that refreshed
record. -/
theorem validate_api_key_frame :
    ∀ (table : List APIKeyR) (key : String) (now : Nat),
      ((validate_api_key table key now).1 = none →
        (validate_api_key table key now).2 = table) ∧
      (∀ k, (validate_api_key table key now).1 = some k →
        ∃ k₀, get_by_key table key = some k₀ ∧
          k = { k₀ with last_used_at := some now } ∧
          (validate_api_key table key now).2 =
            table.map (fun x =>
              if x.key = key then { x with last_used_at := some now }
              else x)) := by
  intro table key now
  constructor
  · intro h
    cases hg : get_by_key table key with
    | none => simp [validate_api_key, hg]
    | some k₀ =>
      cases hv : is_valid k₀ now
      · simp [validate_api_key, hg, hv]
      · simp [validate_api_key, hg, hv] at h
  · intro k hk
    cases hg : get_by_key table key with
    | none => simp [validate_api_key, hg] at hk
    | some k₀ =>
      cases hv : is_valid k₀ now
      · simp [validate_api_key, hg, hv] at hk
      · simp [validate_api_key, hg, hv] at hk
        have hg' : table.find? (fun x => x.key == key) = some k₀ := hg
        have hkey : k₀.key = key := by
          have hp := List.find?_some hg'
          simpa using hp
        refine ⟨k₀, rfl, hk.symm, ?_⟩
        simp only [validate_api_key, update_last_used, hg, hv,
          Bool.not_true, Bool.false_eq_true, if_false]
        apply List.map_congr_left
        intro x _
        rw [hkey]
        by_cases hxk : x.key = key
        · simp [hxk]
        · simp [hxk]

/-- C7: each of `get_api_key`, `delete_api_key` and `toggle_api_key` fails
with 404 "API key not found" when the id is absent or the record belongs to
a different owner; every failure of these operations is that same 404
(never a 403); and `get_user_api_keys` returns exactly the caller's own
keys. -/
theorem api_key_lifecycle_owner_scoping :
    ∀ (table : List APIKeyR) (kid uid : Nat),
      ((get_by_id table kid = none ∨
          ∃ k, get_by_id table kid = some k ∧ k.user_id ≠ some uid) →
        get_api_key table kid uid = .error ⟨404, "API key not found"⟩ ∧
        delete_api_key table kid uid = .error ⟨404, "API key not found"⟩ ∧
        ∀ act, toggle_api_key table kid uid act =
          .error ⟨404, "API key not found"⟩) ∧
      (∀ e, (get_api_key table kid uid = .error e ∨
             delete_api_key table kid uid = .error e ∨
             ∃ act, toggle_api_key table kid uid act = .error e) →
        e = ⟨404, "API key not found"⟩) ∧
      (∀ k, k ∈ get_by_user table uid ↔ k ∈ table ∧ k.user_id = some uid) := by
  intro table kid uid
  refine ⟨?_, ?_, ?_⟩
  · rintro (h | ⟨k, hk, hne⟩)
    · exact ⟨by simp [get_api_key, h], by simp [delete_api_key, h],
        fun act => by simp [toggle_api_key, h]⟩
    · exact ⟨by simp [get_api_key, hk, hne], by simp [delete_api_key, hk, hne],
        fun act => by simp [toggle_api_key, hk, hne]⟩
  · intro e he
    cases hg : get_by_id table kid with
    | none =>
      rcases he with he | he | ⟨act, he⟩ <;>
        · simp [get_api_key, delete_api_key, toggle_api_key, hg] at he
          exact he.symm
    | some k =>
      by_cases hcond : k.user_id = some uid
      · rcases he with he | he | ⟨act, he⟩ <;>
          simp [get_api_key, delete_api_key, toggle_api_key, hg, hcond] at he
      · rcases he with he | he | ⟨act, he⟩ <;>
          · simp [get_api_key, delete_api_key, toggle_api_key, hg, hcond] at he
            exact he.symm
  · intro k
    unfold get_by_user
    simp [List.mem_filter]

/-- C7 witness: fetching another owner's key by id yields 404. -/
theorem api_key_lifecycle_owner_scoping_witness :
    get_api_key exStore.api_keys 3 7 = .error ⟨404, "API key not found"⟩ :=
  ((api_key_lifecycle_owner_scoping exStore.api_keys 3 7).1
    (Or.inr ⟨exForeignKey, by simp [get_by_id, exStore, exBoundaryKey,
      exKeyOwned, exForeignKey], by simp [exForeignKey]⟩)).1

/-- C1, evaluating the code at the failing input: the claims every
issuance site of this app produces (`"sub": user.id`, a Python `int`) do
NOT round-trip — strictly before the TTL elapses, `decode_access_token`
fails with `JWTClaimsError` ("Subject must be a string.") instead of
returning the original claims, because python-jose's default subject
validation rejects a non-string `sub`. The identical claims with a
string-typed subject do round-trip, isolating the integer subject as the
defect. -/
theorem token_roundtrip_subject_bug :
    decode_access_token defaultSettings
        (create_access_token defaultSettings exTokenData (some 60) 0) 30 =
      .error .claimsError ∧
    exTokenData.sub = some 9 ∧
    exTokenData.sub_is_string = false ∧
    (30 : Nat) < 0 + 60 ∧
    decode_access_token defaultSettings
        (create_access_token defaultSettings exTokenDataStr (some 60) 0) 30 =
      .ok { data := exTokenDataStr, exp := 60, iat := 0 } ∧
    decode_access_token defaultSettings
        (create_access_token defaultSettings exTokenDataStr (some 60) 0)
        100 = .error .expired := by
  refine ⟨rfl, rfl, rfl, by decide, rfl, rfl⟩

/-- C8: the optional token-path resolver is total and yields `None` on
every failure: missing credentials, any decode failure (malformed, expired
or signature-invalid), a payload without `sub`, and an unknown subject. -/
theorem optional_jwt_resolver_total :
    ∀ (settings : Settings) (credentials : Option Token) (db : Store)
      (now : Nat),
      (credentials = none →
        get_current_user_from_jwt settings credentials db now = none) ∧
      (∀ token e, credentials = some token →
        decode_access_token settings token now = .error e →
        get_current_user_from_jwt settings credentials db now = none) ∧
      (∀ token payload, credentials = some token →
        decode_access_token settings token now = .ok payload →
        payload.data.sub = none →
        get_current_user_from_jwt settings credentials db now = none) ∧
      (∀ token payload uid, credentials = some token →
        decode_access_token settings token now = .ok payload →
        payload.data.sub = some uid →
        db.users.find? (fun u => u.id == uid) = none →
        get_current_user_from_jwt settings credentials db now = none) := by
  intro s credentials db now
  refine ⟨?_, ?_, ?_, ?_⟩
  · intro h
    subst h
    rfl
  · intro token e hc hd
    subst hc
    simp [get_current_user_from_jwt, hd]
  · intro token payload hc hd hsub
    subst hc
    simp [get_current_user_from_jwt, hd, hsub]
  · intro token payload uid hc hd hsub hfind
    subst hc
    simp [get_current_user_from_jwt, hd, hsub, hfind]

/-- C8 witness: a token signed with the wrong secret resolves to `None`
against the concrete store. -/
theorem optional_jwt_resolver_total_witness :
    get_current_user_from_jwt defaultSettings (some exBadToken) exStore 10 =
      none :=
  (optional_jwt_resolver_total defaultSettings (some exBadToken) exStore
    10).2.1 exBadToken .invalidSignature rfl rfl

/-- The key-derived part of `permission_checker` computes exactly the
spec-side key-derived permission set. -/
theorem checker_key_permissions_fst (api_key : Option String) (db : Store)
    (now : Nat) :
    (checker_key_permissions api_key db now).1 =
      specKeyDerivedPerms api_key db now := by
  cases api_key with
  | none => rfl
  | some key =>
    cases h : (validate_api_key db.api_keys key now).1 <;>
      simp [checker_key_permissions, specKeyDerivedPerms, h,
        rolePermissionUnion]

/-- The key-derived part of `role_checker` computes exactly the spec-side
key-derived role set. -/
theorem checker_key_roles_fst (api_key : Option String) (db : Store)
    (now : Nat) :
    (checker_key_roles api_key db now).1 =
      specKeyDerivedRoles api_key db now := by
  cases api_key with
  | none => rfl
  | some key =>
    cases h : (validate_api_key db.api_keys key now).1 <;>
      simp [checker_key_roles, specKeyDerivedRoles, h]

/-- The set `permission_checker` finally tests equals the spec-side
effective permission set. -/
theorem checker_perm_set (settings : Settings) (credentials : Option Token)
    (api_key : Option String) (db : Store) (now : Nat) :
    checker_token_fallback settings credentials now
        (fun payload => payload.data.permissions)
        (checker_key_permissions api_key db now).1 =
      specEffectivePerms settings credentials api_key db now := by
  rw [checker_key_permissions_fst]
  unfold specEffectivePerms checker_token_fallback specTokenPerms
  by_cases h : specKeyDerivedPerms api_key db now = ∅
  · cases credentials with
    | none => simp [h]
    | some t => cases hd : decode_access_token settings t now <;> simp [h, hd]
  · cases credentials with
    | none => simp [h]
    | some t => simp [h]

/-- The set `role_checker` finally tests equals the spec-side effective
role set. -/
theorem checker_role_set (settings : Settings) (credentials : Option Token)
    (api_key : Option String) (db : Store) (now : Nat) :
    checker_token_fallback settings credentials now
        (fun payload => payload.data.roles)
        (checker_key_roles api_key db now).1 =
      specEffectiveRoles settings credentials api_key db now := by
  rw [checker_key_roles_fst]
  unfold specEffectiveRoles checker_token_fallback specTokenRoles
  by_cases h : specKeyDerivedRoles api_key db now = ∅
  · cases credentials with
    | none => simp [h]
    | some t => cases hd : decode_access_token settings t now <;> simp [h, hd]
  · cases credentials with
    | none => simp [h]
    | some t => simp [h]

/-- C4: the permission check succeeds iff the credential's effective
permission set (key-derived when a key was presented and yielded something,
token-embedded otherwise) contains every listed permission, and every
failure is a 403; the role check succeeds iff at least one listed role is
in the effective role set, and every failure is a 403. -/
theorem access_control_semantics :
    ∀ (settings : Settings)
      (required_permissions required_roles : List String)
      (credentials : Option Token) (api_key : Option String) (db : Store)
      (now : Nat),
      ((permission_checker settings required_permissions credentials api_key
          db now).1 = .ok true ↔
        ∀ p ∈ required_permissions,
          p ∈ specEffectivePerms settings credentials api_key db now) ∧
      (∀ e, (permission_checker settings required_permissions credentials
          api_key db now).1 = .error e →
        e = ⟨403, "Missing required permissions: " ++
          showNames required_permissions⟩) ∧
      ((role_checker settings required_roles credentials api_key db
          now).1 = .ok true ↔
        ∃ r ∈ required_roles,
          r ∈ specEffectiveRoles settings credentials api_key db now) ∧
      (∀ e, (role_checker settings required_roles credentials api_key db
          now).1 = .error e →
        e = ⟨403, "Missing required roles: " ++ showNames required_roles⟩) := by
  intro s rp rr cred key db now
  have hp := checker_perm_set s cred key db now
  have hr := checker_role_set s cred key db now
  refine ⟨?_, ?_, ?_, ?_⟩
  · simp only [permission_checker, hp]
    by_cases hall :
        rp.all (fun p => p ∈ specEffectivePerms s cred key db now) = true
    · simp only [hall, if_true]
      simp only [List.all_eq_true, decide_eq_true_eq] at hall
      exact iff_of_true trivial hall
    · rw [if_neg (by simpa using hall)]
      simp only [List.all_eq_true, decide_eq_true_eq] at hall
      exact iff_of_false (by simp) hall
  · intro e he
    simp only [permission_checker, hp] at he
    by_cases hall :
        rp.all (fun p => p ∈ specEffectivePerms s cred key db now) = true
    · rw [if_pos hall] at he
      exact absurd he (by simp)
    · rw [if_neg (by simpa using hall)] at he
      simpa using he.symm
  · simp only [role_checker, hr]
    by_cases hany :
        rr.any (fun r => r ∈ specEffectiveRoles s cred key db now) = true
    · simp only [hany, if_true]
      simp only [List.any_eq_true, decide_eq_true_eq] at hany
      exact iff_of_true trivial hany
    · rw [if_neg (by simpa using hany)]
      simp only [List.any_eq_true, decide_eq_true_eq] at hany
      exact iff_of_false (by simp) hany
  · intro e he
    simp only [role_checker, hr] at he
    by_cases hany :
        rr.any (fun r => r ∈ specEffectiveRoles s cred key db now) = true
    · rw [if_pos hany] at he
      exact absurd he (by simp)
    · rw [if_neg (by simpa using hany)] at he
      simpa using he.symm

/-- C4 witness: the key path grants `users:write` through the attached
admin role on the concrete store. -/
theorem access_control_semantics_witness :
    (permission_checker defaultSettings ["users:write"] none (some "sk-live")
      exStore 10).1 = .ok true :=
  (access_control_semantics defaultSettings ["users:write"] [] none
    (some "sk-live") exStore 10).1.mpr (by decide)

/-- C2 counterexample: a deactivated principal is NOT rejected with the
distinct 403 "Inactive user" on the token path, whichever
cryptographically valid token is presented. The app's own token for user 7
(integer subject) already fails decoding with `JWTClaimsError`, and a
string-subject token that does decode and reach the user still loses the
403: `get_current_user_from_jwt` catches the `HTTPException` from
`verify_user_active` and returns `None`. Either way the required wrapper
reports the generic 401 "Could not validate credentials". -/
theorem inactive_token_path_cex :
    get_current_user_jwt_required defaultSettings (some exInactiveToken)
        exStore 10 = .error ⟨401, "Could not validate credentials"⟩ ∧
    decode_access_token defaultSettings exInactiveToken 10 =
        .error .claimsError ∧
    decode_access_token defaultSettings exInactiveStrToken 10 =
        .ok exInactiveStrToken.payload ∧
    get_current_user_jwt_required defaultSettings (some exInactiveStrToken)
        exStore 10 = .error ⟨401, "Could not validate credentials"⟩ ∧
    (⟨401, "Could not validate credentials"⟩ : HError) ≠
        ⟨403, "Inactive user"⟩ := by
  refine ⟨rfl, rfl, rfl, rfl, ?_⟩
  decide

/-- C2 (amended): for a deactivated principal, key-path resolution with a
valid key fails with the distinct 403 "Inactive user" (the exception
escapes `get_current_user_from_apikey`), while token-path resolution never
surfaces it: when the token decodes and reaches the user, the optional
resolver catches the `verify_user_active` exception and yields `None`; and
the app's own tokens do not even decode (their integer subject fails
`_validate_sub`), also yielding `None`; in both cases the required wrapper
fails with the generic 401. -/
theorem inactive_principal_resolution :
    ∀ (settings : Settings) (db : Store) (user : UserR) (now : Nat),
      user.is_active = false →
      (∀ keyStr k, get_by_key db.api_keys keyStr = some k →
        is_valid k now = true → k.user_id = some user.id →
        db.users.find? (fun u => u.id == user.id) = some user →
        get_current_user_from_apikey (some keyStr) db now =
          .error ⟨403, "Inactive user"⟩) ∧
      (∀ token payload,
        decode_access_token settings token now = .ok payload →
        payload.data.sub = some user.id →
        db.users.find? (fun u => u.id == user.id) = some user →
        get_current_user_from_jwt settings (some token) db now = none ∧
        get_current_user_jwt_required settings (some token) db now =
          .error ⟨401, "Could not validate credentials"⟩) ∧
      (∀ token e,
        decode_access_token settings token now = .error e →
        get_current_user_from_jwt settings (some token) db now = none ∧
        get_current_user_jwt_required settings (some token) db now =
          .error ⟨401, "Could not validate credentials"⟩) := by
  intro s db user now hinact
  refine ⟨?_, ?_, ?_⟩
  · intro keyStr k hg hv huid hfind
    have hval : validate_api_key db.api_keys keyStr now =
        (some { k with last_used_at := some now },
         update_last_used db.api_keys k now) := by
      simp [validate_api_key, hg, hv]
    simp [get_current_user_from_apikey, hval, huid, hfind,
      verify_user_active, hinact]
  · intro token payload hd hsub hfind
    constructor
    · simp [get_current_user_from_jwt, hd, hsub, hfind,
        verify_user_active, hinact]
    · simp [get_current_user_jwt_required, get_current_user_from_jwt, hd,
        hsub, hfind, verify_user_active, hinact]
  · intro token e hd
    constructor
    · simp [get_current_user_from_jwt, hd]
    · simp [get_current_user_jwt_required, get_current_user_from_jwt, hd]

/-- C2 witness: on the concrete store, the inactive owner's valid key is
rejected with 403 "Inactive user"; the string-subject token that decodes
and reaches the inactive user yields `None` from the optional resolver;
and the app's own (integer-subject) token for that user yields the
generic 401 from the required wrapper. -/
theorem inactive_principal_resolution_witness :
    get_current_user_from_apikey (some "sk-boundary") exStore 10 =
        .error ⟨403, "Inactive user"⟩ ∧
    get_current_user_from_jwt defaultSettings (some exInactiveStrToken)
        exStore 10 = none ∧
    get_current_user_jwt_required defaultSettings (some exInactiveToken)
        exStore 10 = .error ⟨401, "Could not validate credentials"⟩ :=
  ⟨(inactive_principal_resolution defaultSettings exStore exInactiveUser 10
      rfl).1 "sk-boundary" exBoundaryKey rfl rfl rfl rfl,
   ((inactive_principal_resolution defaultSettings exStore exInactiveUser 10
      rfl).2.1 exInactiveStrToken exInactiveStrToken.payload rfl rfl rfl).1,
   ((inactive_principal_resolution defaultSettings exStore exInactiveUser 10
      rfl).2.2 exInactiveToken .claimsError rfl).2⟩

/-- `create_with_role` always prepends the freshly built user and bumps the
fresh id, whether or not the `"user"` role exists. -/
theorem create_with_role_shape (st : OAuthStore) (p : OAuthProfile) :
    (create_with_role st p).2 =
      { st with users := (create_with_role st p).1 :: st.users
                nextUserId := st.nextUserId + 1 } := by
  unfold create_with_role
  cases hr : st.roles.find? (fun r => r.name == "user") <;> rfl

/-- The freshly created user carries the fresh primary key. -/
theorem create_with_role_fst_id (st : OAuthStore) (p : OAuthProfile) :
    (create_with_role st p).1.id = st.nextUserId := by
  unfold create_with_role
  cases hr : st.roles.find? (fun r => r.name == "user") <;> rfl

/-- When the `"user"` role exists, `create_with_role` builds exactly
`freshOAuthUser`. -/
theorem create_with_role_fst (st : OAuthStore) (p : OAuthProfile)
    (roleU : RoleR)
    (hrole : st.roles.find? (fun r => r.name == "user") = some roleU) :
    (create_with_role st p).1 = freshOAuthUser st p roleU := by
  unfold create_with_role freshOAuthUser
  rw [hrole]

/-- Reconciliation, fresh email, no prior link: prepend the new user and
the new link. -/
theorem reconcile_fresh_new_link (st : OAuthStore) (p : OAuthProfile)
    (hfind : st.users.find? (fun u => u.email == p.email) = none)
    (hacc : st.accounts.find? (fun a =>
        a.user_id == st.nextUserId && a.provider == p.provider) = none) :
    create_or_get_user_from_oauth st p =
      ((create_with_role st p).1,
       { st with users := (create_with_role st p).1 :: st.users
                 accounts := newOAuthAccount st.nextUserId p :: st.accounts
                 nextUserId := st.nextUserId + 1 }) := by
  unfold create_or_get_user_from_oauth
  rw [hfind]
  simp only [create_with_role_shape, create_with_role_fst_id, hacc]

/-- Reconciliation, fresh email, a prior link for the fresh id (impossible
in a well-formed store, but covered for totality): refresh in place. -/
theorem reconcile_fresh_refresh (st : OAuthStore) (p : OAuthProfile)
    (a0 : OAuthAccountR)
    (hfind : st.users.find? (fun u => u.email == p.email) = none)
    (hacc : st.accounts.find? (fun a =>
        a.user_id == st.nextUserId && a.provider == p.provider) = some a0) :
    create_or_get_user_from_oauth st p =
      ((create_with_role st p).1,
       { st with users := (create_with_role st p).1 :: st.users
                 accounts := st.accounts.map (fun a =>
                   if a.user_id == st.nextUserId && a.provider == p.provider
                   then refreshOAuthAccount p a else a)
                 nextUserId := st.nextUserId + 1 }) := by
  unfold create_or_get_user_from_oauth
  rw [hfind]
  simp only [create_with_role_shape, create_with_role_fst_id, hacc]

/-- Reconciliation, existing email, no link for this provider yet: return
the found user and prepend the link. -/
theorem reconcile_existing_new_link (st : OAuthStore) (p : OAuthProfile)
    (u0 : UserR)
    (hfind : st.users.find? (fun u => u.email == p.email) = some u0)
    (hacc : st.accounts.find? (fun a =>
        a.user_id == u0.id && a.provider == p.provider) = none) :
    create_or_get_user_from_oauth st p =
      (u0, { st with accounts := newOAuthAccount u0.id p :: st.accounts }) := by
  unfold create_or_get_user_from_oauth
  rw [hfind]
  simp only [hacc]

/-- Reconciliation, existing email, existing link: return the found user
and refresh the link in place. -/
theorem reconcile_existing_refresh (st : OAuthStore) (p : OAuthProfile)
    (u0 : UserR) (a0 : OAuthAccountR)
    (hfind : st.users.find? (fun u => u.email == p.email) = some u0)
    (hacc : st.accounts.find? (fun a =>
        a.user_id == u0.id && a.provider == p.provider) = some a0) :
    create_or_get_user_from_oauth st p =
      (u0, { st with accounts := st.accounts.map (fun a =>
        if a.user_id == u0.id && a.provider == p.provider then
          refreshOAuthAccount p a
        else a) }) := by
  unfold create_or_get_user_from_oauth
  rw [hfind]
  simp only [hacc]

/-- Reconciliation never removes or rewrites an existing user record. -/
theorem reconcile_users_preserved (st : OAuthStore) (p : OAuthProfile) :
    ∀ u ∈ st.users, u ∈ (create_or_get_user_from_oauth st p).2.users := by
  intro u hu
  cases hfind : st.users.find? (fun x => x.email == p.email) with
  | none =>
    cases hacc : st.accounts.find? (fun a =>
        a.user_id == st.nextUserId && a.provider == p.provider) with
    | none =>
      rw [reconcile_fresh_new_link st p hfind hacc]
      exact List.mem_cons_of_mem _ hu
    | some a0 =>
      rw [reconcile_fresh_refresh st p a0 hfind hacc]
      exact List.mem_cons_of_mem _ hu
  | some u0 =>
    cases hacc : st.accounts.find? (fun a =>
        a.user_id == u0.id && a.provider == p.provider) with
    | none =>
      rw [reconcile_existing_new_link st p u0 hfind hacc]
      exact hu
    | some a0 =>
      rw [reconcile_existing_refresh st p u0 a0 hfind hacc]
      exact hu

/-- Reconciliation never removes a link: every pre-existing (principal,
provider) pair is still present afterwards. -/
theorem reconcile_accounts_preserved (st : OAuthStore) (p : OAuthProfile) :
    ∀ a ∈ st.accounts,
      ∃ b ∈ (create_or_get_user_from_oauth st p).2.accounts,
        b.user_id = a.user_id ∧ b.provider = a.provider := by
  intro a ha
  cases hfind : st.users.find? (fun x => x.email == p.email) with
  | none =>
    cases hacc : st.accounts.find? (fun x =>
        x.user_id == st.nextUserId && x.provider == p.provider) with
    | none =>
      rw [reconcile_fresh_new_link st p hfind hacc]
      exact ⟨a, List.mem_cons_of_mem _ ha, rfl, rfl⟩
    | some a0 =>
      rw [reconcile_fresh_refresh st p a0 hfind hacc]
      refine ⟨if a.user_id == st.nextUserId && a.provider == p.provider then
          refreshOAuthAccount p a else a, List.mem_map_of_mem _ ha, ?_, ?_⟩ <;>
        by_cases h : (a.user_id == st.nextUserId &&
            a.provider == p.provider) = true <;>
          simp [h, refreshOAuthAccount]
  | some u0 =>
    cases hacc : st.accounts.find? (fun x =>
        x.user_id == u0.id && x.provider == p.provider) with
    | none =>
      rw [reconcile_existing_new_link st p u0 hfind hacc]
      exact ⟨a, List.mem_cons_of_mem _ ha, rfl, rfl⟩
    | some a0 =>
      rw [reconcile_existing_refresh st p u0 a0 hfind hacc]
      refine ⟨if a.user_id == u0.id && a.provider == p.provider then
          refreshOAuthAccount p a else a, List.mem_map_of_mem _ ha, ?_, ?_⟩ <;>
        by_cases h : (a.user_id == u0.id && a.provider == p.provider) = true <;>
          simp [h, refreshOAuthAccount]

/-- C9: reconciliation looks the Principal up by email, creating it with
the default `"user"` role and `is_superuser = false` when absent; two
logins with the same email from two different providers resolve to the same
Principal and leave exactly two distinct links (one per provider); a
repeated login for an existing (principal, provider) pair refreshes the
stored tokens instead of adding a link; and reconciliation never deletes a
user or a link and never rewrites an existing user record. -/
theorem oauth_reconciliation :
    (∀ (st : OAuthStore) (p1 p2 p3 : OAuthProfile) (roleU : RoleR),
      st.users.find? (fun u => u.email == p1.email) = none →
      st.roles.find? (fun r => r.name == "user") = some roleU →
      (∀ a ∈ st.accounts, a.user_id ≠ st.nextUserId) →
      p2.email = p1.email →
      p1.provider ≠ p2.provider →
      p3.email = p1.email →
      p3.provider = p1.provider →
      ((create_or_get_user_from_oauth st p1).1.roles = [roleU] ∧
        roleU.name = "user" ∧
        (create_or_get_user_from_oauth st p1).1.is_superuser = false ∧
        (create_or_get_user_from_oauth st p1).1.is_active = true ∧
        (create_or_get_user_from_oauth st p1).1.email = p1.email) ∧
      (create_or_get_user_from_oauth
          (create_or_get_user_from_oauth st p1).2 p2).1 =
        (create_or_get_user_from_oauth st p1).1 ∧
      (∃ a1 ∈ (create_or_get_user_from_oauth
          (create_or_get_user_from_oauth st p1).2 p2).2.accounts,
        a1.user_id = (create_or_get_user_from_oauth st p1).1.id ∧
        a1.provider = p1.provider) ∧
      (∃ a2 ∈ (create_or_get_user_from_oauth
          (create_or_get_user_from_oauth st p1).2 p2).2.accounts,
        a2.user_id = (create_or_get_user_from_oauth st p1).1.id ∧
        a2.provider = p2.provider) ∧
      (create_or_get_user_from_oauth
          (create_or_get_user_from_oauth st p1).2 p2).2.accounts.length =
        st.accounts.length + 2 ∧
      (create_or_get_user_from_oauth (create_or_get_user_from_oauth
          (create_or_get_user_from_oauth st p1).2 p2).2 p3).1 =
        (create_or_get_user_from_oauth st p1).1 ∧
      (create_or_get_user_from_oauth (create_or_get_user_from_oauth
          (create_or_get_user_from_oauth st p1).2 p2).2 p3).2.accounts.length
        = st.accounts.length + 2 ∧
      ∃ b ∈ (create_or_get_user_from_oauth (create_or_get_user_from_oauth
          (create_or_get_user_from_oauth st p1).2 p2).2 p3).2.accounts,
        b.user_id = (create_or_get_user_from_oauth st p1).1.id ∧
        b.provider = p1.provider ∧
        b.access_token = p3.access_token) ∧
    (∀ (st : OAuthStore) (p : OAuthProfile),
      (∀ u ∈ st.users, u ∈ (create_or_get_user_from_oauth st p).2.users) ∧
      (∀ a ∈ st.accounts,
        ∃ b ∈ (create_or_get_user_from_oauth st p).2.accounts,
          b.user_id = a.user_id ∧ b.provider = a.provider)) := by
  constructor
  · intro st p1 p2 p3 roleU hfind hrole haccs hemail hprov hemail3 hprov3
    have hacc1 : st.accounts.find? (fun a =>
        a.user_id == st.nextUserId && a.provider == p1.provider) = none := by
      apply List.find?_eq_none.mpr
      intro x hx
      simp only [Bool.and_eq_true, beq_iff_eq, not_and]
      exact fun h1 _ => haccs x hx h1
    have e1 := reconcile_fresh_new_link st p1 hfind hacc1
    rw [create_with_role_fst st p1 roleU hrole] at e1
    have hname : roleU.name = "user" := by
      have h := List.find?_some hrole
      simpa using h
    have hfind2 : (freshOAuthUser st p1 roleU :: st.users).find?
        (fun u => u.email == p2.email) = some (freshOAuthUser st p1 roleU) := by
      apply List.find?_cons_of_pos
      simp [freshOAuthUser, hemail]
    have hacc2 : (newOAuthAccount st.nextUserId p1 :: st.accounts).find?
        (fun a => a.user_id == (freshOAuthUser st p1 roleU).id &&
          a.provider == p2.provider) = none := by
      rw [List.find?_cons_of_neg]
      · apply List.find?_eq_none.mpr
        intro x hx
        simp only [Bool.and_eq_true, beq_iff_eq, not_and]
        exact fun h1 _ => haccs x hx h1
      · simp [newOAuthAccount, freshOAuthUser, hprov]
    have e2 : create_or_get_user_from_oauth
        (create_or_get_user_from_oauth st p1).2 p2 =
        (freshOAuthUser st p1 roleU,
         { users := freshOAuthUser st p1 roleU :: st.users
           roles := st.roles
           accounts := newOAuthAccount (freshOAuthUser st p1 roleU).id p2 ::
             newOAuthAccount st.nextUserId p1 :: st.accounts
           nextUserId := st.nextUserId + 1 }) := by
      rw [e1]
      exact reconcile_existing_new_link _ p2 _ hfind2 hacc2
    have hfind3 : (freshOAuthUser st p1 roleU :: st.users).find?
        (fun u => u.email == p3.email) = some (freshOAuthUser st p1 roleU) := by
      apply List.find?_cons_of_pos
      simp [freshOAuthUser, hemail3]
    have hacc3 : (newOAuthAccount (freshOAuthUser st p1 roleU).id p2 ::
        newOAuthAccount st.nextUserId p1 :: st.accounts).find?
        (fun a => a.user_id == (freshOAuthUser st p1 roleU).id &&
          a.provider == p3.provider) =
        some (newOAuthAccount st.nextUserId p1) := by
      rw [List.find?_cons_of_neg]
      · apply List.find?_cons_of_pos
        simp [newOAuthAccount, freshOAuthUser, hprov3]
      · simp [newOAuthAccount, freshOAuthUser, hprov3, Ne.symm hprov]
    have e3 : create_or_get_user_from_oauth (create_or_get_user_from_oauth
        (create_or_get_user_from_oauth st p1).2 p2).2 p3 =
        (freshOAuthUser st p1 roleU,
         { users := freshOAuthUser st p1 roleU :: st.users
           roles := st.roles
           accounts := (newOAuthAccount (freshOAuthUser st p1 roleU).id p2 ::
              newOAuthAccount st.nextUserId p1 :: st.accounts).map (fun a =>
                if a.user_id == (freshOAuthUser st p1 roleU).id &&
                    a.provider == p3.provider then refreshOAuthAccount p3 a
                else a)
           nextUserId := st.nextUserId + 1 }) := by
      rw [e2]
      exact reconcile_existing_refresh _ p3 _ _ hfind3 hacc3
    refine ⟨⟨?_, hname, ?_, ?_, ?_⟩, ?_, ?_, ?_, ?_, ?_, ?_, ?_⟩
    · rw [e1]
      rfl
    · rw [e1]
      rfl
    · rw [e1]
      rfl
    · rw [e1]
      rfl
    · rw [e2, e1]
    · rw [e2, e1]
      exact ⟨newOAuthAccount st.nextUserId p1,
        List.mem_cons_of_mem _ (List.mem_cons_self _ _), rfl, rfl⟩
    · rw [e2, e1]
      exact ⟨newOAuthAccount (freshOAuthUser st p1 roleU).id p2,
        List.mem_cons_self _ _, rfl, rfl⟩
    · rw [e2]
      simp
    · rw [e3, e1]
    · rw [e3]
      simp
    · rw [e3, e1]
      refine ⟨refreshOAuthAccount p3 (newOAuthAccount st.nextUserId p1),
        ?_, rfl, rfl, rfl⟩
      apply List.mem_map.mpr
      refine ⟨newOAuthAccount st.nextUserId p1,
        List.mem_cons_of_mem _ (List.mem_cons_self _ _), ?_⟩
      simp [newOAuthAccount, freshOAuthUser, hprov3]
  · intro st p
    exact ⟨reconcile_users_preserved st p, reconcile_accounts_preserved st p⟩

/-- C9 witness: a Google then a GitHub login for `alice@example.com`
against the seeded empty store resolve to the same Principal. -/
theorem oauth_reconciliation_witness :
    (create_or_get_user_from_oauth
        (create_or_get_user_from_oauth exOStore exP1).2 exP2).1 =
      (create_or_get_user_from_oauth exOStore exP1).1 :=
  (oauth_reconciliation.1 exOStore exP1 exP2 exP3 exRoleUser rfl rfl
    (fun a ha => absurd ha (List.not_mem_nil a)) rfl (by decide) rfl
    rfl).2.1

/-- C10 witness: looking up an unknown key string leaves the concrete
store unchanged. -/
theorem validate_api_key_frame_witness :
    (validate_api_key exStore.api_keys "sk-unknown" 10).2 =
      exStore.api_keys :=
  (validate_api_key_frame exStore.api_keys "sk-unknown" 10).1 rfl
